import Mathlib

/-!
Verification of the Prompt Architect single-page application (src/App.jsx):
the image-ingestion routine `processFile`, the bounded-retry HTTP wrapper
`fetchWithRetry`, and the analysis action `analyzeImage`, shallowly embedded
as pure Lean functions with explicit state passing and explicit effect
traces (request counts and sleep delays).
-/

namespace PromptArchitect

/-- A JSON value as produced by JavaScript's JSON.parse. -/
inductive JValue where
  | jstr : String → JValue
  | jnum : Int → JValue
  | jbool : Bool → JValue
  | jnull : JValue
  | jarr : List JValue → JValue
  | jobj : List (String × JValue) → JValue
deriving BEq

/-- Outcome of one call to the browser fetch API, as observed by
`fetchWithRetry` (src/App.jsx line 82): either an HTTP response arrived
(with its status, and the JSON decoding of its body — `none` when
`response.json()` throws), or `fetch` itself threw (network failure). -/
inductive FetchOutcome where
  | resp : Nat → Option JValue → FetchOutcome
  | exn : FetchOutcome

/-- A transport: the sequence of outcomes the network produces, indexed by
the 0-based attempt number. Models the stub transports of the spec's
testable properties. -/
def Transport := Nat → FetchOutcome

/-- A JavaScript exception value as thrown inside `fetchWithRetry`:
the explicitly constructed terminal error for a non-retryable status
(src/App.jsx line 89), a network-level error from `fetch`, or an error
from `response.json()` on a 2xx response. -/
inductive JsError where
  | apiError : Nat → JsError
  | netError : JsError
  | jsonError : JsError
deriving BEq

/-- What `fetchWithRetry` delivers to its caller: a decoded JSON body via
`return`, a thrown exception, or — when the loop falls through after
exhausting `maxRetries` retryable attempts — JavaScript's implicit
`undefined` (src/App.jsx line 96). -/
inductive RetryResult where
  | success : JValue → RetryResult
  | thrown : JsError → RetryResult
  | undef : RetryResult
deriving BEq

/-- The observable behaviour of one `fetchWithRetry` call: its result, how
many requests it issued, and the sleep delays (in ms) it awaited, in order. -/
structure FetchTrace where
  result : RetryResult
  requests : Nat
  sleeps : List Nat
deriving BEq

/-- JavaScript's Response.ok: status in the inclusive range 200–299. -/
def isOk (status : Nat) : Bool := 200 ≤ status && status ≤ 299

/-- The body of the retry loop of `fetchWithRetry` (src/App.jsx lines
80–95), as a recursion on the number of remaining iterations: at attempt
`i` the loop has `remaining = maxRetries - i` iterations left, so the
JavaScript guard `i < maxRetries` becomes `remaining ≠ 0` and the
last-attempt test `i === maxRetries - 1` becomes `remaining = 1`.

Per iteration: issue the request; on a 2xx whose body decodes, return it;
on status 429 or ≥ 500 sleep `2^i * 1000` ms and continue; any other
status throws `Error` with that status — which the loop's own catch block
then handles exactly like a network error: rethrown only on the last
attempt, otherwise slept on and retried. Falling out of the loop yields
`undefined`. -/
def fetchGo (tr : Transport) (i : Nat) : Nat → FetchTrace
  | 0 => { result := .undef, requests := 0, sleeps := [] }
  | r + 1 =>
    match tr i with
    | .resp status body =>
      if isOk status then
        match body with
        | some v => { result := .success v, requests := 1, sleeps := [] }
        | none =>
          if r = 0 then { result := .thrown .jsonError, requests := 1, sleeps := [] }
          else
            let rest := fetchGo tr (i + 1) r
            { result := rest.result, requests := 1 + rest.requests,
              sleeps := 2 ^ i * 1000 :: rest.sleeps }
      else if status = 429 ∨ 500 ≤ status then
        let rest := fetchGo tr (i + 1) r
        { result := rest.result, requests := 1 + rest.requests,
          sleeps := 2 ^ i * 1000 :: rest.sleeps }
      else
        if r = 0 then { result := .thrown (.apiError status), requests := 1, sleeps := [] }
        else
          let rest := fetchGo tr (i + 1) r
          { result := rest.result, requests := 1 + rest.requests,
            sleeps := 2 ^ i * 1000 :: rest.sleeps }
    | .exn =>
      if r = 0 then { result := .thrown .netError, requests := 1, sleeps := [] }
      else
        let rest := fetchGo tr (i + 1) r
        { result := rest.result, requests := 1 + rest.requests,
          sleeps := 2 ^ i * 1000 :: rest.sleeps }

/-- The retry wrapper `fetchWithRetry` (src/App.jsx lines 79–96), with the
URL and options abstracted into the transport. The source's default
`maxRetries` is 5. -/
def fetchWithRetry (tr : Transport) (maxRetries : Nat) : FetchTrace :=
  fetchGo tr 0 maxRetries

/-- The source's default retry budget (src/App.jsx line 79). -/
def defaultMaxRetries : Nat := 5

/-- A transport that answers every request with the same HTTP status and
no decodable body. -/
def constStatus (status : Nat) : Transport := fun _ => .resp status none

/-- The stub transport of the spec's testable property: status 429 on the
first N−1 requests, then status 200 with decoded body `b` on the Nth. -/
def stub429 (N : Nat) (b : JValue) : Transport :=
  fun i => if i < N - 1 then .resp 429 none else .resp 200 (some b)

/-- C1: the claim says a transport always answering 404 makes
`fetchWithRetry` fail on the first attempt with no sleep and no retry.
The code does not do this: the terminal `throw` on line 89 sits inside
the loop's own `try`, so its `catch` treats the 404 like a transient
failure — with the default budget of 5 the call issues 5 requests,
sleeps 1000+2000+4000+8000 ms, and only then propagates `API Error: 404`. -/
theorem fetchWithRetry_404_retries_instead_of_failing_fast :
    fetchWithRetry (constStatus 404) defaultMaxRetries =
      { result := .thrown (.apiError 404), requests := 5,
        sleeps := [1000, 2000, 4000, 8000] } := by
  rfl

/-- C2: the claim says a transport always answering 500 makes
`fetchWithRetry` attempt exactly `maxRetries` times with doubling backoff
and then report failure. The code issues the 5 requests and sleeps
(1000+2000+4000+8000+16000 ms, including a sleep after the final attempt)
but then falls out of the loop and returns `undefined` — no failure is
reported to the caller (the latent bug the spec flags in §9). -/
theorem fetchWithRetry_500_exhausts_returning_undefined :
    fetchWithRetry (constStatus 500) defaultMaxRetries =
      { result := .undef, requests := 5,
        sleeps := [1000, 2000, 4000, 8000, 16000] } := by
  rfl

/-- Unfolding lemma: a retryable response (429 or ≥ 500, body irrelevant
because `response.json()` is never reached) makes the loop sleep
`2^i * 1000` ms and move on to the next attempt. -/
theorem fetchGo_retry_step (tr : Transport) (i r status : Nat)
    (htr : tr i = .resp status none)
    (hok : ¬ (isOk status = true))
    (hretry : status = 429 ∨ 500 ≤ status) :
    fetchGo tr i (r + 1) =
      { result := (fetchGo tr (i + 1) r).result,
        requests := 1 + (fetchGo tr (i + 1) r).requests,
        sleeps := 2 ^ i * 1000 :: (fetchGo tr (i + 1) r).sleeps } := by
  simp only [fetchGo, htr]
  rw [if_neg hok, if_pos hretry]

/-- Unfolding lemma: a 2xx response with a decodable body is returned at
once, ending the loop after this single request with no sleep. -/
theorem fetchGo_ok_step (tr : Transport) (i r status : Nat) (v : JValue)
    (htr : tr i = .resp status (some v))
    (hok : isOk status = true) :
    fetchGo tr i (r + 1) =
      { result := .success v, requests := 1, sleeps := [] } := by
  simp only [fetchGo, htr]
  rw [if_pos hok]

theorem stub429_lt {N i : Nat} (b : JValue) (h : i < N - 1) :
    stub429 N b i = .resp 429 none := by
  simp [stub429, h]

theorem stub429_ge {N i : Nat} (b : JValue) (h : ¬ i < N - 1) :
    stub429 N b i = .resp 200 (some b) := by
  simp [stub429, h]

/-- Helper for C3: running the loop from attempt `i` with `d` further 429
responses before the 200 succeeds, counting `d + 1` requests and sleeping
`2^(i+k) * 1000` ms for each of the `d` retried attempts. -/
theorem fetchGo_stub429 (N : Nat) (b : JValue) :
    ∀ d i r, i + d = N - 1 → d < r →
      fetchGo (stub429 N b) i r =
        { result := .success b, requests := d + 1,
          sleeps := (List.range d).map (fun k => 2 ^ (i + k) * 1000) } := by
  intro d
  induction d with
  | zero =>
    intro i r hi hr
    match r, hr with
    | r' + 1, _ =>
      rw [fetchGo_ok_step (stub429 N b) i r' 200 b (stub429_ge b (by omega)) (by decide)]
      simp
  | succ d ih =>
    intro i r hi hr
    match r, hr with
    | r' + 1, hr =>
      rw [fetchGo_retry_step (stub429 N b) i r' 429 (stub429_lt b (by omega))
            (by decide) (by decide),
          ih (i + 1) r' (by omega) (by omega)]
      dsimp only
      rw [List.range_succ_eq_map, List.map_cons, List.map_map]
      simp only [FetchTrace.mk.injEq, List.cons.injEq]
      refine ⟨trivial, by omega, by simp, ?_⟩
      apply List.map_congr_left
      intro k _
      have h3 : i + 1 + k = i + (k + 1) := by omega
      simp [Function.comp, h3]

/-- C3: for every `1 ≤ N ≤ maxRetries` and a transport answering 429 on
the first N−1 requests and 200 with body `b` on the Nth, `fetchWithRetry`
returns the decoded body `b` after issuing exactly N requests, having
slept a total of `1000·(2^0 + 2^1 + … + 2^(N−2))` ms (zero when N = 1). -/
theorem fetchWithRetry_429_then_ok (N maxRetries : Nat) (b : JValue)
    (h1 : 1 ≤ N) (h2 : N ≤ maxRetries) :
    (fetchWithRetry (stub429 N b) maxRetries).result = .success b ∧
    (fetchWithRetry (stub429 N b) maxRetries).requests = N ∧
    (fetchWithRetry (stub429 N b) maxRetries).sleeps.sum =
      ((List.range (N - 1)).map (fun k => 1000 * 2 ^ k)).sum := by
  have h := fetchGo_stub429 N b (N - 1) 0 maxRetries (by omega) (by omega)
  rw [fetchWithRetry, h]
  refine ⟨rfl, ?_, ?_⟩
  · show N - 1 + 1 = N
    omega
  · show ((List.range (N - 1)).map (fun k => 2 ^ (0 + k) * 1000)).sum = _
    congr 1
    apply List.map_congr_left
    intro k _
    simp [Nat.mul_comm]

/-- Witness for C3 at N = 3, maxRetries = 5. -/
theorem fetchWithRetry_429_then_ok_witness :
    1 ≤ 3 ∧ 3 ≤ 5 ∧
    ((fetchWithRetry (stub429 3 (.jstr "ok")) 5).result = .success (.jstr "ok") ∧
     (fetchWithRetry (stub429 3 (.jstr "ok")) 5).requests = 3 ∧
     (fetchWithRetry (stub429 3 (.jstr "ok")) 5).sleeps.sum =
       ((List.range (3 - 1)).map (fun k => 1000 * 2 ^ k)).sum) :=
  ⟨by decide, by decide,
   fetchWithRetry_429_then_ok 3 5 (.jstr "ok") (by decide) (by decide)⟩

/-- The React component state of `App` (src/App.jsx lines 36–41):
`image` is the base64 payload (or `none` for the initial `null`),
`previewUrl` the data URL shown in the preview, `analyzing` the in-flight
flag, `results` the decoded analysis record, `error` the user-facing
error message, `copied` the clipboard acknowledgment flag. -/
structure AppState where
  image : Option String
  previewUrl : Option String
  analyzing : Bool
  results : Option JValue
  error : Option String
  copied : Bool
deriving BEq

/-- The initial component state: every `useState` starts at null/false. -/
def initialState : AppState :=
  { image := none, previewUrl := none, analyzing := false,
    results := none, error := none, copied := false }

/-- A user-selected file as `processFile` observes it: its declared media
type (`file.type`) and the data URL that `FileReader.readAsDataURL`
produces for it (`reader.result`). -/
structure JsFile where
  type : String
  dataUrl : String

/-- The user-facing message set for a non-image file (src/App.jsx line 66). -/
def invalidImageMsg : String := "Please upload a valid image file."

/-- JavaScript's String.prototype.startsWith, computed on the character
lists so that it evaluates inside the kernel. -/
def jsStartsWith (s pre : String) : Bool := pre.data.isPrefixOf s.data

/-- JavaScript's String.prototype.split(",") over the character list, with
an accumulator for the current segment. "a,b".split(",") = ["a","b"],
"ab".split(",") = ["ab"], "".split(",") = [""]. -/
def splitCommaAux : List Char → List Char → List String
  | [], acc => [String.mk acc.reverse]
  | c :: cs, acc =>
    if c = ',' then String.mk acc.reverse :: splitCommaAux cs []
    else splitCommaAux cs (c :: acc)

/-- JavaScript's `s.split(',')`. -/
def jsSplitComma (s : String) : List String := splitCommaAux s.data []

/-- The ingestion routine `processFile` (src/App.jsx lines 64–77): a file
whose declared type does not start with "image/" only sets the error
message; otherwise error and results are cleared and, once the read
completes, the full data URL becomes the preview and the segment produced
by `reader.result.split(',')[1]` becomes the image payload (JavaScript
yields `undefined`, here `none`, when the data URL has no comma). -/
def processFile (file : JsFile) (s : AppState) : AppState :=
  if ¬ jsStartsWith file.type "image/" then
    { s with error := some invalidImageMsg }
  else
    { s with error := none, results := none,
             previewUrl := some file.dataUrl,
             image := (jsSplitComma file.dataUrl)[1]? }

/-- Modelled from the spec's wording for C9: the segment of a string after
its first comma (`none` when there is no comma), to be compared with what
`processFile` actually stores. -/
def afterFirstCommaAux : List Char → Option (List Char)
  | [] => none
  | c :: cs => if c = ',' then some cs else afterFirstCommaAux cs

/-- The segment of `s` after its first comma, per the spec's wording. -/
def afterFirstComma (s : String) : Option String :=
  (afterFirstCommaAux s.data).map String.mk

theorem splitCommaAux_no_comma {p : List Char} (hp : ',' ∉ p) :
    ∀ acc, splitCommaAux p acc = [String.mk (acc.reverse ++ p)] := by
  induction p with
  | nil => intro acc; simp [splitCommaAux]
  | cons c cs ih =>
    intro acc
    have hc : ¬ c = ',' := fun h => hp (h ▸ List.mem_cons_self c cs)
    rw [splitCommaAux, if_neg hc, ih (List.not_mem_of_not_mem_cons hp)]
    simp

theorem splitCommaAux_append {h : List Char} (p : List Char) (hh : ',' ∉ h) :
    ∀ acc, splitCommaAux (h ++ ',' :: p) acc =
      String.mk (acc.reverse ++ h) :: splitCommaAux p [] := by
  induction h with
  | nil => intro acc; simp [splitCommaAux]
  | cons c cs ih =>
    intro acc
    have hc : ¬ c = ',' := fun hx => hh (hx ▸ List.mem_cons_self c cs)
    rw [List.cons_append, splitCommaAux, if_neg hc,
        ih (List.not_mem_of_not_mem_cons hh)]
    simp

theorem afterFirstCommaAux_append {h : List Char} (p : List Char) (hh : ',' ∉ h) :
    afterFirstCommaAux (h ++ ',' :: p) = some p := by
  induction h with
  | nil => simp [afterFirstCommaAux]
  | cons c cs ih =>
    have hc : ¬ c = ',' := fun hx => hh (hx ▸ List.mem_cons_self c cs)
    rw [List.cons_append, afterFirstCommaAux, if_neg hc,
        ih (List.not_mem_of_not_mem_cons hh)]

/-- C8: ingesting a file whose declared media type does not start with
"image/" only surfaces the validation error: the previously held image,
preview, results, and every other field of the state are unchanged. -/
theorem processFile_rejects_non_image (file : JsFile) (s : AppState)
    (hty : ¬ jsStartsWith file.type "image/") :
    processFile file s = { s with error := some invalidImageMsg } := by
  simp [processFile, hty]

/-- Witness for C8: a text/plain file against a state already holding an
image, a preview and a result. -/
theorem processFile_rejects_non_image_witness :
    ¬ (jsStartsWith "text/plain" "image/") = true ∧
    processFile ⟨"text/plain", "data:text/plain;base64,QQ=="⟩
        { image := some "QUJD", previewUrl := some "data:image/png;base64,QUJD",
          analyzing := false, results := some (.jobj []), error := none,
          copied := false } =
      { image := some "QUJD", previewUrl := some "data:image/png;base64,QUJD",
        analyzing := false, results := some (.jobj []),
        error := some invalidImageMsg, copied := false } :=
  ⟨by decide,
   processFile_rejects_non_image ⟨"text/plain", "data:text/plain;base64,QQ=="⟩
     { image := some "QUJD", previewUrl := some "data:image/png;base64,QUJD",
       analyzing := false, results := some (.jobj []), error := none,
       copied := false } (by decide)⟩

/-- C9: ingesting a file whose declared media type starts with "image/"
and whose data URL is `header ++ "," ++ payload` (with no comma in either
part, as FileReader's base64 data URLs guarantee) stores exactly the
segment after the first comma as the image payload, keeps the full data
URL as the preview, and clears any previously held results and error. -/
theorem processFile_accepts_image (s : AppState) (ty : String)
    (h p : List Char) (hty : jsStartsWith ty "image/")
    (hh : ',' ∉ h) (hp : ',' ∉ p) :
    processFile ⟨ty, String.mk (h ++ ',' :: p)⟩ s =
      { s with error := none, results := none,
               previewUrl := some (String.mk (h ++ ',' :: p)),
               image := some (String.mk p) } ∧
    afterFirstComma (String.mk (h ++ ',' :: p)) = some (String.mk p) := by
  constructor
  · rw [processFile, if_neg (by simp [hty])]
    have hs : jsSplitComma (String.mk (h ++ ',' :: p)) =
        [String.mk h, String.mk p] := by
      rw [jsSplitComma]
      show splitCommaAux (h ++ ',' :: p) [] = _
      rw [splitCommaAux_append p hh, splitCommaAux_no_comma hp]
      simp
    rw [hs]
    rfl
  · rw [afterFirstComma]
    show (afterFirstCommaAux (h ++ ',' :: p)).map String.mk = _
    rw [afterFirstCommaAux_append p hh]
    rfl

/-- Witness for C9: a PNG whose data URL is
"data:image/png;base64,QUJD", against a state holding a stale result and
error. -/
theorem processFile_accepts_image_witness :
    (jsStartsWith "image/png" "image/") = true ∧
    (',' ∉ "data:image/png;base64".data) ∧ (',' ∉ "QUJD".data) ∧
    (processFile ⟨"image/png", String.mk ("data:image/png;base64".data ++ ',' :: "QUJD".data)⟩
        { image := none, previewUrl := none, analyzing := false,
          results := some (.jobj []), error := some "old", copied := false } =
      { image := some (String.mk "QUJD".data),
        previewUrl := some (String.mk ("data:image/png;base64".data ++ ',' :: "QUJD".data)),
        analyzing := false, results := none, error := none, copied := false } ∧
     afterFirstComma (String.mk ("data:image/png;base64".data ++ ',' :: "QUJD".data)) =
       some (String.mk "QUJD".data)) :=
  ⟨by decide, by decide, by decide,
   processFile_accepts_image
     { image := none, previewUrl := none, analyzing := false,
       results := some (.jobj []), error := some "old", copied := false }
     "image/png" "data:image/png;base64".data "QUJD".data
     (by decide) (by decide) (by decide)⟩

/-- Property access on a decoded JSON value, as JavaScript member access
on a JSON.parse result: defined only on objects (any failure along the
chain on line 165 throws and is caught by the surrounding catch). -/
def jGet (v : JValue) (key : String) : Option JValue :=
  match v with
  | .jobj fields => fields.lookup key
  | _ => none

/-- Array indexing on a decoded JSON value. -/
def jIndex (v : JValue) (n : Nat) : Option JValue :=
  match v with
  | .jarr elems => elems[n]?
  | _ => none

/-- The extraction `result.candidates[0].content.parts[0].text` performed
on src/App.jsx line 165; `none` when any step fails or the leaf is not a
string (the throw is caught by the catch block of `analyzeImage`). -/
def extractText (v : JValue) : Option String :=
  match ((((jGet v "candidates").bind (fun c => jIndex c 0)).bind
      (fun c => jGet c "content")).bind (fun c => jGet c "parts")).bind
      (fun ps => (jIndex ps 0).bind (fun p => jGet p "text")) with
  | some (.jstr t) => some t
  | _ => none

/-- Scanner for the body of a JSON string literal: consume characters up
to the closing quote; escape sequences are outside the modelled fragment. -/
def scanString : List Char → List Char → Option (String × List Char)
  | [], _ => none
  | c :: rest, acc =>
    if c = '"' then some (String.mk acc.reverse, rest)
    else if c = '\\' then none
    else scanString rest (c :: acc)

/-- Comma-separated `"key":"value"` members up to and including the
closing brace of a JSON object. -/
def parsePairs : Nat → List Char → Option (List (String × JValue) × List Char)
  | 0, _ => none
  | fuel + 1, cs =>
    match cs with
    | '"' :: rest =>
      match scanString rest [] with
      | some (key, ':' :: '"' :: rest2) =>
        match scanString rest2 [] with
        | some (val, ',' :: rest4) =>
          match parsePairs fuel rest4 with
          | some (ps, rest5) => some ((key, .jstr val) :: ps, rest5)
          | none => none
        | some (val, '\x7d' :: rest4) => some ([(key, .jstr val)], rest4)
        | _ => none
      | _ => none
    | _ => none

/-- JSON.parse as invoked on src/App.jsx line 165, modelled on the
fragment the request's response schema constrains the service to: a flat
JSON object of string-valued fields, in compact form without escape
sequences. Inputs outside that fragment are treated as unparseable,
i.e. as throwing. -/
def jsonParse (s : String) : Option JValue :=
  match s.data with
  | '\x7b' :: '\x7d' :: rest => if rest.isEmpty then some (.jobj []) else none
  | '\x7b' :: rest =>
    match parsePairs (rest.length + 1) rest with
    | some (ps, []) => some (.jobj ps)
    | _ => none
  | _ => none

/-- The inline image payload descriptor of the outbound request
(src/App.jsx line 138). -/
structure InlineData where
  mimeType : String
  data : String
deriving BEq

/-- One entry of a `parts` array: a text part or an inline-data part. -/
inductive Part where
  | text : String → Part
  | inline : InlineData → Part
deriving BEq

/-- One entry of the `contents` array of the outbound request. -/
structure Content where
  role : String
  parts : List Part
deriving BEq

/-- The `responseSchema` constraint of the outbound request
(src/App.jsx lines 144–159): an OBJECT schema whose properties are the
named fields with their declared scalar types, plus the `required` list. -/
structure ResponseSchema where
  type : String
  properties : List (String × String)
  required : List String
deriving BEq

/-- The `generationConfig` of the outbound request (lines 142–160). -/
structure GenerationConfig where
  responseMimeType : String
  responseSchema : ResponseSchema
deriving BEq

/-- The outbound request body built on src/App.jsx lines 133–161. -/
structure RequestBody where
  contents : List Content
  systemInstruction : List Part
  generationConfig : GenerationConfig
deriving BEq

/-- The fixed system instruction (src/App.jsx lines 110–123). -/
def systemPrompt : String :=
  "You are an expert prompt engineer for advanced image generation models. \n    Analyze the provided image and provide a JSON response breaking it down into these exact categories:\n    1. subject: Specific details about the main anchor.\n    2. location: Where the scene takes place.\n    3. action: What is happening.\n    4. mood: Emotional tone and implied narrative.\n    5. style: Overall aesthetic, medium, and era.\n    6. composition: Framing and camera angles.\n    7. lighting: Lighting setup and color palette.\n    8. quality: Sharpness, fidelity, and realism level.\n    9. negative: Elements to avoid (common failures, artifacts).\n    10. master_prompt: A synthesized, high-quality prompt that combines all elements into a cohesive instruction.\n    \n    Ensure the JSON is valid and strictly follows the keys above."

/-- The fixed user instruction (src/App.jsx line 125). -/
def userQuery : String :=
  "Please analyze this image based on the framework provided and generate a master prompt."

/-- The ten response fields, in the order they appear in both the schema
properties and the `required` list (src/App.jsx lines 146–158). -/
def tenFields : List String :=
  ["subject", "location", "action", "mood", "style", "composition",
   "lighting", "quality", "negative", "master_prompt"]

/-- The request body `analyzeImage` builds for the held base64 payload
(src/App.jsx lines 133–161). The inline image part carries the literal
MIME type "image/png" from line 138. -/
def buildRequestBody (image : String) : RequestBody :=
  { contents := [{ role := "user",
                   parts := [.text userQuery,
                             .inline { mimeType := "image/png", data := image }] }],
    systemInstruction := [.text systemPrompt],
    generationConfig :=
      { responseMimeType := "application/json",
        responseSchema :=
          { type := "OBJECT",
            properties := tenFields.map (fun f => (f, "string")),
            required := tenFields } } }

/-- The MIME types of the inline-data parts of a request body, in order. -/
def inlineMimes (b : RequestBody) : List String :=
  b.contents.flatMap (fun c => c.parts.filterMap (fun p =>
    match p with
    | .inline d => some d.mimeType
    | _ => none))

/-- The missing-credential message (src/App.jsx line 103). -/
def missingKeyMsg : String :=
  "API Key missing. Ensure VITE_GEMINI_API_KEY is set in Vercel Environment Variables."

/-- The collapsed user-facing failure message (src/App.jsx line 168). -/
def analysisFailedMsg : String := "Analysis failed. Please try again later."

/-- The ambient environment of `analyzeImage`: the module-level `apiKey`
(src/App.jsx lines 26–31), whether the global `__firebase_config` is
defined (the guard on line 102 probes the hosting environment; nothing in
this repository defines that global), and the network transport behind
`fetch`. -/
structure AnalyzeEnv where
  apiKey : String
  firebaseConfigDefined : Bool
  transport : Transport

/-- The observable outcome of one `analyzeImage` invocation: the final
component state, the number of network requests issued, the sleeps
awaited, and the outbound request body when one was built. -/
structure AnalyzeOutcome where
  state : AppState
  requests : Nat
  sleeps : List Nat
  requestBody : Option RequestBody

/-- The analysis action `analyzeImage` (src/App.jsx lines 98–173).
`if (!image) return` on line 99 fires on both `null` and the empty
string, by JavaScript falsiness. The credential guard on line 102 fires
when `apiKey` is empty and `__firebase_config` is undefined. Otherwise
`analyzing` is set, the request is sent through `fetchWithRetry`, and on
a successful result the nested generated text is extracted and parsed —
`setResults` on success, the collapsed failure message on any thrown
error (including an `undefined` result from an exhausted retry budget,
whose property access on line 165 throws). The `finally` on line 171
clears `analyzing` on every path that entered the try. -/
def analyzeImage (env : AnalyzeEnv) (s : AppState) : AnalyzeOutcome :=
  match s.image with
  | none => { state := s, requests := 0, sleeps := [], requestBody := none }
  | some img =>
    if img = "" then
      { state := s, requests := 0, sleeps := [], requestBody := none }
    else if env.apiKey = "" ∧ env.firebaseConfigDefined = false then
      { state := { s with error := some missingKeyMsg },
        requests := 0, sleeps := [], requestBody := none }
    else
      let s1 := { s with analyzing := true, error := none }
      let t := fetchWithRetry env.transport defaultMaxRetries
      let s2 :=
        match t.result with
        | .success v =>
          match extractText v with
          | some text =>
            match jsonParse text with
            | some d => { s1 with results := some d }
            | none => { s1 with error := some analysisFailedMsg }
          | none => { s1 with error := some analysisFailedMsg }
        | _ => { s1 with error := some analysisFailedMsg }
      { state := { s2 with analyzing := false },
        requests := t.requests, sleeps := t.sleeps,
        requestBody := some (buildRequestBody img) }

/-- The analyze button (src/App.jsx lines 264–268): it is rendered only
while a preview exists and no results are held, and it is disabled while
`analyzing` is true, so a click reaches `analyzeImage` only in that
configuration; otherwise the click is a no-op. -/
def clickAnalyze (env : AnalyzeEnv) (s : AppState) : AnalyzeOutcome :=
  if s.previewUrl.isSome && s.results.isNone && !s.analyzing then
    analyzeImage env s
  else
    { state := s, requests := 0, sleeps := [], requestBody := none }

/-- A well-formed service response body whose generated text is `text`:
`candidates[0].content.parts[0].text = text`. -/
def apiBody (text : String) : JValue :=
  .jobj [("candidates", .jarr [.jobj [("content", .jobj [("parts",
    .jarr [.jobj [("text", .jstr text)]])])]])]

/-- The mocked generated text of C4's scenario: a JSON object carrying
the nine category fields but no `master_prompt` key. -/
def missingMasterPromptText : String :=
  "\x7b\"subject\":\"a\",\"location\":\"b\",\"action\":\"c\",\"mood\":\"d\",\"style\":\"e\",\"composition\":\"f\",\"lighting\":\"g\",\"quality\":\"h\",\"negative\":\"i\"\x7d"

/-- The parsed form of `missingMasterPromptText`. -/
def partialRecord : JValue :=
  .jobj [("subject", .jstr "a"), ("location", .jstr "b"),
         ("action", .jstr "c"), ("mood", .jstr "d"), ("style", .jstr "e"),
         ("composition", .jstr "f"), ("lighting", .jstr "g"),
         ("quality", .jstr "h"), ("negative", .jstr "i")]

/-- The environment of C4's scenario: a valid credential and a transport
answering 200 with the master_prompt-less body on the first request. -/
def c4Env : AnalyzeEnv :=
  { apiKey := "key", firebaseConfigDefined := false,
    transport := fun _ => .resp 200 (some (apiBody missingMasterPromptText)) }

/-- The state of C4's scenario: an image held and previewed. -/
def c4State : AppState :=
  { initialState with image := some "QUJD",
                      previewUrl := some "data:image/png;base64,QUJD" }

set_option maxRecDepth 20000 in
/-- C4: the claim says a decoded nested JSON object missing the
`master_prompt` key makes `analyze` fail with a decode error. The code
performs no key validation: it stores the nine-field partial object via
`setResults` with no error surfaced, the state the claim rules out. -/
theorem analyzeImage_accepts_missing_master_prompt :
    (analyzeImage c4Env c4State).state.results = some partialRecord ∧
    (analyzeImage c4Env c4State).state.error = none ∧
    jGet partialRecord "master_prompt" = none :=
  ⟨rfl, rfl, rfl⟩

/-- C5: with an image held (a nonempty payload — JavaScript's falsy
check on line 99 treats the empty string as no image held) and an empty
`apiKey`, with the `__firebase_config` global undefined as it always is
in this repository, `analyzeImage` surfaces the missing-credential
message and returns before any network activity: zero requests, no
sleeps, no request body built, and no other state touched. -/
theorem analyzeImage_missing_credential (env : AnalyzeEnv) (s : AppState)
    (img : String) (himg : s.image = some img) (hne : img ≠ "")
    (hkey : env.apiKey = "") (hfb : env.firebaseConfigDefined = false) :
    analyzeImage env s =
      { state := { s with error := some missingKeyMsg },
        requests := 0, sleeps := [], requestBody := none } := by
  simp [analyzeImage, himg, hne, hkey, hfb]

/-- Witness for C5: a held one-pixel payload, empty key, no ambient
firebase config. -/
theorem analyzeImage_missing_credential_witness :
    ({ image := some "QUJD", previewUrl := some "p", analyzing := false,
       results := none, error := none, copied := false } : AppState).image = some "QUJD" ∧
    ("QUJD" : String) ≠ "" ∧
    ({ apiKey := "", firebaseConfigDefined := false,
       transport := constStatus 200 } : AnalyzeEnv).apiKey = "" ∧
    analyzeImage
        { apiKey := "", firebaseConfigDefined := false, transport := constStatus 200 }
        { image := some "QUJD", previewUrl := some "p", analyzing := false,
          results := none, error := none, copied := false } =
      { state := { image := some "QUJD", previewUrl := some "p",
                   analyzing := false, results := none,
                   error := some missingKeyMsg, copied := false },
        requests := 0, sleeps := [], requestBody := none } :=
  ⟨rfl, by decide, rfl,
   analyzeImage_missing_credential
     { apiKey := "", firebaseConfigDefined := false, transport := constStatus 200 }
     { image := some "QUJD", previewUrl := some "p", analyzing := false,
       results := none, error := none, copied := false }
     "QUJD" rfl (by decide) rfl rfl⟩

/-- The file of C6's scenario: a JPEG. -/
def c6File : JsFile :=
  { type := "image/jpeg", dataUrl := "data:image/jpeg;base64,QUJD" }

/-- The environment of C6's scenario. -/
def c6Env : AnalyzeEnv :=
  { apiKey := "key", firebaseConfigDefined := false,
    transport := constStatus 404 }

/-- C6 counterexample: ingesting a file that reports media type
"image/jpeg" and then running the analysis produces an outbound request
whose only inline-data part is tagged "image/png" — not the media type
the selected file reported, refuting the claim at this input. -/
theorem analyzeImage_mime_ignores_file_type :
    c6File.type = "image/jpeg" ∧
    (analyzeImage c6Env (processFile c6File initialState)).requestBody.map inlineMimes =
      some ["image/png"] ∧
    ("image/png" : String) ≠ "image/jpeg" :=
  ⟨rfl, rfl, by decide⟩

/-- C6 (amended): for every held image and every invocation that passes
the credential guard, the outbound request body tags the inline image
payload with the constant MIME type "image/png" hardcoded on line 138,
regardless of the selected file's declared media type. -/
theorem analyzeImage_mime_always_png (env : AnalyzeEnv) (s : AppState)
    (img : String) (himg : s.image = some img) (hne : img ≠ "")
    (hstart : env.apiKey ≠ "" ∨ env.firebaseConfigDefined = true) :
    (analyzeImage env s).requestBody = some (buildRequestBody img) ∧
    inlineMimes (buildRequestBody img) = ["image/png"] := by
  have hguard : ¬ (env.apiKey = "" ∧ env.firebaseConfigDefined = false) := by
    rcases hstart with h | h
    · exact fun hc => h hc.1
    · intro hc
      rw [h] at hc
      exact Bool.noConfusion hc.2
  constructor
  · simp [analyzeImage, himg, hne, hguard]
  · rfl

/-- Witness for C6's amended theorem: a held payload with a valid key. -/
theorem analyzeImage_mime_always_png_witness :
    ({ image := some "QUJD", previewUrl := some "p", analyzing := false,
       results := none, error := none, copied := false } : AppState).image = some "QUJD" ∧
    ("QUJD" : String) ≠ "" ∧
    (("key" : String) ≠ "" ∨ False) ∧
    ((analyzeImage
        { apiKey := "key", firebaseConfigDefined := false, transport := constStatus 404 }
        { image := some "QUJD", previewUrl := some "p", analyzing := false,
          results := none, error := none, copied := false }).requestBody =
      some (buildRequestBody "QUJD") ∧
     inlineMimes (buildRequestBody "QUJD") = ["image/png"]) := by
  refine ⟨rfl, by decide, Or.inl (by decide), ?_⟩
  have h := analyzeImage_mime_always_png
    { apiKey := "key", firebaseConfigDefined := false, transport := constStatus 404 }
    { image := some "QUJD", previewUrl := some "p", analyzing := false,
      results := none, error := none, copied := false }
    "QUJD" rfl (by decide) (Or.inl (by decide))
  exact h

/-- C7: triggering the analyze action while the state machine is InFlight
(`analyzing` is true) is a no-op: the submit button is disabled, so the
click issues no request and changes nothing. -/
theorem clickAnalyze_inflight_noop (env : AnalyzeEnv) (s : AppState)
    (h : s.analyzing = true) :
    clickAnalyze env s =
      { state := s, requests := 0, sleeps := [], requestBody := none } := by
  simp [clickAnalyze, h]

/-- Witness for C7: a click while a request is in flight. -/
theorem clickAnalyze_inflight_noop_witness :
    ({ image := some "QUJD", previewUrl := some "p", analyzing := true,
       results := none, error := none, copied := false } : AppState).analyzing = true ∧
    clickAnalyze
        { apiKey := "key", firebaseConfigDefined := false, transport := constStatus 200 }
        { image := some "QUJD", previewUrl := some "p", analyzing := true,
          results := none, error := none, copied := false } =
      { state := { image := some "QUJD", previewUrl := some "p", analyzing := true,
                   results := none, error := none, copied := false },
        requests := 0, sleeps := [], requestBody := none } :=
  ⟨rfl,
   clickAnalyze_inflight_noop
     { apiKey := "key", firebaseConfigDefined := false, transport := constStatus 200 }
     { image := some "QUJD", previewUrl := some "p", analyzing := true,
       results := none, error := none, copied := false } rfl⟩

/-- C10: every invocation of `analyzeImage` that starts a request — an
image is held and the credential guard passes — ends with `analyzing`
false, whatever the transport does (success, decode failure, terminal
status, network error, or an exhausted retry budget): the `finally` block
on line 171 runs on every such path. -/
theorem analyzeImage_clears_analyzing (env : AnalyzeEnv) (s : AppState)
    (img : String) (himg : s.image = some img) (hne : img ≠ "")
    (hstart : env.apiKey ≠ "" ∨ env.firebaseConfigDefined = true) :
    (analyzeImage env s).state.analyzing = false := by
  have hguard : ¬ (env.apiKey = "" ∧ env.firebaseConfigDefined = false) := by
    rcases hstart with h | h
    · exact fun hc => h hc.1
    · intro hc
      rw [h] at hc
      exact Bool.noConfusion hc.2
  simp [analyzeImage, himg, hne, hguard]

/-- Witness for C10: a started request against a transport that exhausts
the retry budget (status 500 throughout), the path on which the bug of C2
would otherwise leave the flag stuck. -/
theorem analyzeImage_clears_analyzing_witness :
    ({ image := some "QUJD", previewUrl := some "p", analyzing := false,
       results := none, error := none, copied := false } : AppState).image = some "QUJD" ∧
    ("QUJD" : String) ≠ "" ∧
    (("key" : String) ≠ "" ∨ False) ∧
    (analyzeImage
        { apiKey := "key", firebaseConfigDefined := false, transport := constStatus 500 }
        { image := some "QUJD", previewUrl := some "p", analyzing := false,
          results := none, error := none, copied := false }).state.analyzing = false :=
  ⟨rfl, by decide, Or.inl (by decide),
   analyzeImage_clears_analyzing
     { apiKey := "key", firebaseConfigDefined := false, transport := constStatus 500 }
     { image := some "QUJD", previewUrl := some "p", analyzing := false,
       results := none, error := none, copied := false }
     "QUJD" rfl (by decide) (Or.inl (by decide))⟩

end PromptArchitect
